import Mathlib

/-!
Verification of the clinic_report repository against its design document.

The repository has two source components:
  * src/report_template/render.js — a Node script that renders a per-case
    data bundle into a PDF via a headless browser (the render pipeline);
  * src/powershell/newest_folder_getter.ps1 — operator utilities that locate
    the newest case folder and the newest report file after a date threshold.

The development below is a shallow embedding of those programs.  Pure string
and JSON manipulation is translated function by function; the effectful
pipeline of render.js is modelled as a function from a World (the outcomes of
every external interaction: argv, file existence, JSON parse result, browser
step outcomes, the clock) to a RunResult recording the observable effects
(exit code, which steps ran, whether the browser was launched and closed,
what data was injected, what file was written).
-/

/-! ### String and path helpers (Node path module, JS String methods) -/

/-- Embedding of JS `String.prototype.padStart(2, "0")`:
if the string already has length ≥ 2 it is returned unchanged, otherwise
zeros are prepended up to length 2. -/
def padStart2 (s : String) : String :=
  if s.length ≥ 2 then s else String.mk (List.replicate (2 - s.length) '0') ++ s

/-- Index of the last occurrence of a character in a list, if any. -/
def lastIdxOf (c : Char) : List Char → Option Nat
  | [] => none
  | a :: rest =>
    match lastIdxOf c rest with
    | some i => some (i + 1)
    | none => if a = c then some 0 else none

/-- Splitting of a character list at every occurrence of a separator
character, mirroring String.splitOn for a one-character separator; written
with structural recursion so that it evaluates by reduction. -/
def splitOnChar (c : Char) : List Char → List (List Char)
  | [] => [[]]
  | a :: rest =>
    match splitOnChar c rest, decEq a c with
    | r, isTrue _ => [] :: r
    | [], isFalse _ => [[a]]
    | g :: gs, isFalse _ => (a :: g) :: gs

/-- Final path segment (the portion after the last slash). -/
def basename (p : String) : String := String.mk ((splitOnChar '/' p.data).getLastD [])

/-- Embedding of Node `path.extname`: the substring of the basename from its
last dot to the end; empty when there is no dot, when the dot is the first
character of the basename, or for the special segment "..". -/
def extname (p : String) : String :=
  let b := basename p
  if b = ".." then ""
  else
    match lastIdxOf '.' b.toList with
    | none => ""
    | some 0 => ""
    | some i => String.mk (b.toList.drop i)

/-- Embedding of Node `path.join parent name` for a plain file name:
concatenation with a single separator. -/
def joinPath (a b : String) : String := a ++ "/" ++ b

/-- Embedding of Node `path.dirname`: drop the final path segment. -/
def dirname (p : String) : String :=
  let parts := splitOnChar '/' p.data
  if parts.length ≤ 1 then "."
  else if parts.dropLast.all (fun s => s.isEmpty) then "/"
  else String.mk (List.intercalate ['/'] parts.dropLast)

/-- Embedding of Node `path.resolve` on an already-normalized path.  The
resolution against the current working directory is cwd-dependent and is
abstracted away: paths are kept as given, and every claim below is stated
relative to the resolved bundle directory. -/
def resolvePath (p : String) : String := p

/-! ### Timestamps (render.js function ts, lines 13–19) -/

/-- Components of a JS Date as observed by render.js: getFullYear,
getMonth (0-based month index), getDate, getHours, getMinutes, getSeconds. -/
structure DateParts where
  year : Nat
  monthIndex : Nat
  day : Nat
  hours : Nat
  minutes : Nat
  seconds : Nat
  deriving DecidableEq

/-- Embedding of the helper z in ts: decimal string, zero-padded to width 2. -/
def z (n : Nat) : String := padStart2 (Nat.repr n)

/-- Embedding of render.js ts(): year, zero-padded month (getMonth()+1), day,
a hyphen, then zero-padded hours, minutes, seconds. -/
def ts (d : DateParts) : String :=
  Nat.repr d.year ++ z (d.monthIndex + 1) ++ z d.day ++ "-" ++
    z d.hours ++ z d.minutes ++ z d.seconds

/-! ### JSON values and the data loader (render.js lines 41–58) -/

/-- JSON values as produced by JSON.parse.  Numbers are modelled as integers;
no claim depends on fractional numeric rendering. -/
inductive JValue where
  | jnull : JValue
  | jbool : Bool → JValue
  | jnum : Int → JValue
  | jstr : String → JValue
  | jarr : List JValue → JValue
  | jobj : List (String × JValue) → JValue

/-- Property lookup `j[key]`; `none` models JS undefined (also the result of
property access on a non-object value). -/
def jget (j : JValue) (key : String) : Option JValue :=
  match j with
  | JValue.jobj fields => (fields.find? (fun kv => kv.1 == key)).map (fun kv => kv.2)
  | _ => none

/-- JS falsiness of a defined JSON value. -/
def jsFalsy : JValue → Bool
  | JValue.jnull => true
  | JValue.jbool b => !b
  | JValue.jnum n => n == 0
  | JValue.jstr s => s == ""
  | JValue.jarr _ => false
  | JValue.jobj _ => false

/-- Embedding of `json.report_metadata || {}`. -/
def metaOf (json : JValue) : JValue :=
  match jget json "report_metadata" with
  | none => JValue.jobj []
  | some v => if jsFalsy v then JValue.jobj [] else v

/-- Embedding of `Array.isArray(json.tricho_analysis) ? json.tricho_analysis : []`. -/
def arrOf (json : JValue) : List JValue :=
  match jget json "tricho_analysis" with
  | some (JValue.jarr xs) => xs
  | _ => []

/-- Embedding of readTrichoData, applied to the outcome of reading and
parsing tricho_data.json (`none` models an unreadable or unparsable file,
whose exception propagates to the top-level handler). -/
def readTrichoData (parsed : Option JValue) : Except Unit (JValue × List JValue) :=
  match parsed with
  | none => Except.error ()
  | some json => Except.ok (metaOf json, arrOf json)

mutual

/-- Embedding of JS `String(v)` on a JSON value. -/
def jsToString : JValue → String
  | JValue.jnull => "null"
  | JValue.jbool true => "true"
  | JValue.jbool false => "false"
  | JValue.jnum n => n.repr
  | JValue.jstr s => s
  | JValue.jobj _ => "[object Object]"
  | JValue.jarr xs => String.intercalate "," (jsArrayElems xs)

/-- Element rendering inside `Array.prototype.toString`: null renders as the
empty string, every other element by jsToString. -/
def jsArrayElems : List JValue → List String
  | [] => []
  | JValue.jnull :: vs => "" :: jsArrayElems vs
  | v :: vs => jsToString v :: jsArrayElems vs

end

/-- Embedding of render.js safeMeta (lines 53–58): the trimmed string form of
`meta[key]` unless that value is undefined, null, or trims to empty, in which
case the fallback. -/
def safeMeta (meta : JValue) (key : String) (fallback : String) : String :=
  match jget meta key with
  | none => fallback
  | some JValue.jnull => fallback
  | some v =>
    let s := (jsToString v).trim
    if s = "" then fallback else s

/-! ### Argument parsing (render.js lines 27–39) -/

structure ParsedArgs where
  html : Option String
  positional : List String
  deriving DecidableEq

/-- Embedding of parseArgs: "--html" consumes the following token as the flag
value (the last occurrence wins, matching the loop that overwrites
flags.html); every other token is positional, in order.  A trailing "--html"
with no following token leaves the flag undefined, as `argv[++i]` does. -/
def parseArgs : List String → ParsedArgs
  | [] => { html := none, positional := [] }
  | a :: rest =>
    if a = "--html" then
      match rest with
      | [] => { html := none, positional := [] }
      | b :: rest2 =>
        let r := parseArgs rest2
        { html := some (r.html.getD b), positional := r.positional }
    else
      let r := parseArgs rest
      { html := r.html, positional := a :: r.positional }

/-! ### Output name selection (render.js lines 82–88) -/

/-- Embedding of JS `String.prototype.toLowerCase` (ASCII case mapping),
written over the character list so that it evaluates by reduction. -/
def jsToLowerCase (s : String) : String := String.mk (s.data.map Char.toLower)

/-- Embedding of the output file-name choice: the caller-supplied second
positional argument when it is a non-empty (truthy) string whose extname
lowercases to ".pdf", otherwise the generated "report-" ++ ts ++ ".pdf". -/
def outName (outNameMaybe : Option String) (d : DateParts) : String :=
  match outNameMaybe with
  | none => "report-" ++ ts d ++ ".pdf"
  | some nm =>
    if nm ≠ "" ∧ jsToLowerCase (extname nm) = ".pdf" then nm
    else "report-" ++ ts d ++ ".pdf"

/-! ### The render pipeline (render.js main, lines 60–204)

The effectful steps of main are modelled by a World: the command-line
arguments and the outcome of every external interaction, in program order.
The function main below follows the control flow of render.js exactly:

  * fewer than one positional argument: print usage, exit 1 (lines 64–75);
  * the output path is chosen from the second positional argument and the
    current clock (lines 82–88);
  * existence checks for tricho_data.json and the HTML template; a missing
    file exits 1 before anything else runs (lines 100–110);
  * readTrichoData (line 114): an unreadable or unparsable file throws, the
    rejection reaches the top-level catch (lines 201–204) and the process
    exits 1 — the browser was not launched yet;
  * puppeteer.launch (line 133): on failure the rejection propagates, exit 1;
  * page.goto (line 149) and page.evaluate of the entry-point call
    (lines 159–175): on failure the rejection propagates, exit 1, and
    browser.close() on line 197 is never reached;
  * the settle wait (lines 179–181) has a fixed 8000 ms timeout and a catch
    that discards any rejection; the card count (lines 182–184) has a catch
    that replaces any rejection by 0 — neither outcome affects control flow;
  * page.pdf (lines 190–194): on failure the rejection propagates, exit 1,
    no file is produced and browser.close() is never reached;
  * on success browser.close() runs and the process ends with exit code 0.
-/

/-- Outcomes of every external interaction of one render.js invocation. -/
structure World where
  argv : List String
  dataFileExists : Bool
  htmlFileExists : Bool
  dataParse : Option JValue
  launchOk : Bool
  gotoOk : Bool
  entryPointOk : Bool
  waitSettles : Bool
  cardCountResult : Except Unit Nat
  pdfOk : Bool
  now : DateParts

/-- Observable effects of one render.js invocation. -/
structure RunResult where
  exitCode : Nat
  usagePrinted : Bool
  dataRead : Bool
  browserLaunched : Bool
  browserClosed : Bool
  injected : Option (List JValue)
  settleWaitTimeoutMs : Option Nat
  reachedCardCount : Bool
  cardCount : Option Nat
  reachedExport : Bool
  pdfWritten : Option String

/-- Result of the usage-error exit (render.js lines 64–75). -/
def usageFailure : RunResult :=
  { exitCode := 1, usagePrinted := true, dataRead := false, browserLaunched := false,
    browserClosed := false, injected := none, settleWaitTimeoutMs := none,
    reachedCardCount := false, cardCount := none, reachedExport := false,
    pdfWritten := none }

/-- Result of a missing-input exit (render.js lines 100–110). -/
def inputCheckFailure : RunResult := { usageFailure with usagePrinted := false }

/-- Result of a fatal error after the data file was read but before the
browser was launched (a readTrichoData or launch rejection). -/
def preLaunchFailure : RunResult := { inputCheckFailure with dataRead := true }

/-- Embedding of render.js main plus the top-level catch (named mainRun since
Lean reserves the name main for executable entry points). -/
def mainRun (w : World) : RunResult :=
  match (parseArgs w.argv).positional with
  | [] => usageFailure
  | tempDirArg :: restPos =>
    if w.dataFileExists = false then inputCheckFailure
    else if w.htmlFileExists = false then inputCheckFailure
    else
      match readTrichoData w.dataParse with
      | Except.error _ => preLaunchFailure
      | Except.ok (_meta, arr) =>
        if w.launchOk = false then preLaunchFailure
        else if w.gotoOk = false then { preLaunchFailure with browserLaunched := true }
        else if w.entryPointOk = false then { preLaunchFailure with browserLaunched := true }
        else
          if w.pdfOk = false then
            { exitCode := 1, usagePrinted := false, dataRead := true,
              browserLaunched := true, browserClosed := false, injected := some arr,
              settleWaitTimeoutMs := some 8000, reachedCardCount := true,
              cardCount := some (match w.cardCountResult with
                | Except.ok n => n
                | Except.error _ => 0),
              reachedExport := true, pdfWritten := none }
          else
            { exitCode := 0, usagePrinted := false, dataRead := true,
              browserLaunched := true, browserClosed := true, injected := some arr,
              settleWaitTimeoutMs := some 8000, reachedCardCount := true,
              cardCount := some (match w.cardCountResult with
                | Except.ok n => n
                | Except.error _ => 0),
              reachedExport := true,
              pdfWritten := some (joinPath (dirname (resolvePath tempDirArg))
                (outName restPos.head? w.now)) }

/-! ### The report-file query (newest_folder_getter.ps1, second script)

The PowerShell utility lists the PDF files of a directory, keeps those whose
LastWriteTime is on or after the midnight of a target date, sorts them by
LastWriteTime descending and returns the FullName of the first, or the string
"<date> has no report" when none match.  DateTime values are modelled as a
count of seconds; the .Date property truncates to the enclosing midnight. -/

def ticksPerDay : Nat := 86400

/-- Embedding of DateTime.Date: truncation to midnight. -/
def dateFloor (t : Nat) : Nat := t / ticksPerDay * ticksPerDay

/-- A file as seen by Get-ChildItem: name, full path, last write time. -/
structure PSFile where
  name : String
  fullName : String
  lastWriteTime : Nat
  deriving DecidableEq

/-- Embedding of the Get-ChildItem -Filter *.pdf wildcard, which matches the
".pdf" suffix case-insensitively on Windows. -/
def matchesPdfFilter (f : PSFile) : Bool :=
  List.isSuffixOf (".pdf").data (jsToLowerCase f.name).data

/-- Descending order on last write time, the key of Sort-Object -Descending. -/
def timeDesc (a b : PSFile) : Prop := b.lastWriteTime ≤ a.lastWriteTime

instance : DecidableRel timeDesc := fun a b =>
  Nat.decLe b.lastWriteTime a.lastWriteTime

instance : IsTotal PSFile timeDesc :=
  ⟨fun a b => (Nat.le_total b.lastWriteTime a.lastWriteTime).elim Or.inl Or.inr⟩

instance : IsTrans PSFile timeDesc :=
  ⟨fun _ _ _ hab hbc => le_trans hbc hab⟩

/-- Embedding of Sort-Object LastWriteTime -Descending. -/
def sortByTimeDesc (l : List PSFile) : List PSFile := List.insertionSort timeDesc l

/-- Embedding of DateTime.ToShortDateString; the culture-specific rendering
of the day is abstracted to its day number. -/
def toShortDateString (t : Nat) : String := Nat.repr (t / ticksPerDay)

/-- Files of the directory that pass both filters of the query: the *.pdf
wildcard and the on-or-after-midnight date filter. -/
def psMatches (files : List PSFile) (targetDate : Nat) : List PSFile :=
  (files.filter matchesPdfFilter).filter
    (fun f => decide (dateFloor targetDate ≤ f.lastWriteTime))

/-- Embedding of the newest-report query (newest_folder_getter.ps1 lines
19–33): filter, sort descending, take the first FullName, or return the
no-report message. -/
def newestFile (files : List PSFile) (targetDate : Nat) : String :=
  match sortByTimeDesc (psMatches files targetDate) with
  | [] => toShortDateString targetDate ++ " has no report"
  | f :: _ => f.fullName

/-! ### Decimal digit-string lemmas

The generated file name embeds Nat.repr renderings of the clock components;
the lemmas below compute the exact length of such a rendering (number of
decimal digits) and show every character of it is a digit. -/

theorem digitChar_isDigit : ∀ m, m < 10 → (Nat.digitChar m).isDigit = true := by decide

theorem zeroChar_isDigit : ('0').isDigit = true := by decide

theorem toDigitsCore_length_eq (b : Nat) (hb : 2 ≤ b) :
    ∀ (f n : Nat) (ds : List Char), n < f →
      (Nat.toDigitsCore b f n ds).length = Nat.log b n + 1 + ds.length := by
  intro f
  induction f with
  | zero => intro n ds h; exact absurd h (Nat.not_lt_zero n)
  | succ f ih =>
    intro n ds h
    simp only [Nat.toDigitsCore]
    by_cases hdiv : n / b = 0
    · have hnb : n < b := by
        by_contra hc
        have h1 : 1 ≤ n / b := (Nat.one_le_div_iff (by omega)).mpr (by omega)
        omega
      simp [hdiv, Nat.log_of_lt hnb]
      omega
    · have hble : b ≤ n := by
        by_contra hc
        exact hdiv (Nat.div_eq_of_lt (by omega))
      have hlt : n / b < f := by
        have : n / b < n := Nat.div_lt_self (by omega) (by omega)
        omega
      rw [if_neg hdiv, ih (n / b) _ hlt, Nat.log_of_one_lt_of_le (by omega) hble]
      simp only [List.length_cons]
      omega

theorem repr_length_eq (n : Nat) : (Nat.repr n).length = Nat.log 10 n + 1 :=
  toDigitsCore_length_eq 10 (by omega) (n + 1) n [] (Nat.lt_succ_self n)

theorem toDigitsCore_digits (b : Nat) (hb1 : 0 < b) (hb2 : b ≤ 10) :
    ∀ (f n : Nat) (ds : List Char), (∀ c ∈ ds, c.isDigit = true) →
      ∀ c ∈ Nat.toDigitsCore b f n ds, c.isDigit = true := by
  intro f
  induction f with
  | zero => intro n ds hds; simpa [Nat.toDigitsCore] using hds
  | succ f ih =>
    intro n ds hds
    simp only [Nat.toDigitsCore]
    have hd : (Nat.digitChar (n % b)).isDigit = true :=
      digitChar_isDigit _ (lt_of_lt_of_le (Nat.mod_lt n hb1) hb2)
    by_cases hdiv : n / b = 0
    · simp only [hdiv, if_pos]
      intro c hc
      rcases List.mem_cons.mp hc with h | h
      · subst h; exact hd
      · exact hds c h
    · rw [if_neg hdiv]
      apply ih
      intro c hc
      rcases List.mem_cons.mp hc with h | h
      · subst h; exact hd
      · exact hds c h

theorem repr_digits (n : Nat) : ∀ c ∈ (Nat.repr n).toList, c.isDigit = true := by
  intro c hc
  exact toDigitsCore_digits 10 (by omega) (le_refl 10) (n + 1) n []
    (by intro x hx; cases hx) c hc

theorem padStart2_length (s : String) (h : s.length ≤ 2) : (padStart2 s).length = 2 := by
  unfold padStart2
  by_cases h2 : s.length ≥ 2
  · rw [if_pos h2]; omega
  · rw [if_neg h2]
    have hlen : (String.mk (List.replicate (2 - s.length) '0') ++ s).length
        = (2 - s.length) + s.length := by
      show (List.replicate (2 - s.length) '0' ++ s.data).length = _
      rw [List.length_append, List.length_replicate]
      rfl
    rw [hlen]
    omega

theorem padStart2_digits (s : String) (hs : ∀ c ∈ s.toList, c.isDigit = true) :
    ∀ c ∈ (padStart2 s).toList, c.isDigit = true := by
  unfold padStart2
  by_cases h2 : s.length ≥ 2
  · rw [if_pos h2]; exact hs
  · rw [if_neg h2]
    intro c hc
    rcases List.mem_append.mp hc with h | h
    · rw [List.eq_of_mem_replicate h]; exact zeroChar_isDigit
    · exact hs c h

theorem z_length (n : Nat) (h : n < 100) : (z n).length = 2 := by
  apply padStart2_length
  rw [repr_length_eq]
  rcases Nat.eq_zero_or_pos n with rfl | hpos
  · simp
  · have : Nat.log 10 n < 2 := Nat.log_lt_of_lt_pow (by omega) (by norm_num; omega)
    omega

theorem z_digits (n : Nat) : ∀ c ∈ (z n).toList, c.isDigit = true :=
  padStart2_digits _ (repr_digits n)

theorem repr_year_length (y : Nat) (h1 : 1000 ≤ y) (h2 : y < 10000) :
    (Nat.repr y).length = 4 := by
  rw [repr_length_eq]
  have e1 : (10 : Nat) ^ 3 ≤ y := by norm_num; omega
  have e2 : y < (10 : Nat) ^ (3 + 1) := by norm_num; omega
  rw [Nat.log_eq_of_pow_le_of_lt_pow e1 e2]

/-! ### Claim C4 — metadata normalization -/

/-- C4: for every metadata mapping, key, and fallback value, the normalized
field value equals the fallback when the stored value is absent, null, or
trims to the empty string, and otherwise equals the trimmed string form of
the stored value; and the result depends only on the value stored at that
key, hence is independent of every other field (two mappings agreeing at the
key normalize identically). -/
theorem safeMeta_correct (m m2 : JValue) (key fallback : String) :
    (jget m key = none → safeMeta m key fallback = fallback) ∧
    (jget m key = some JValue.jnull → safeMeta m key fallback = fallback) ∧
    (∀ v, jget m key = some v → v ≠ JValue.jnull →
      ((jsToString v).trim = "" → safeMeta m key fallback = fallback) ∧
      ((jsToString v).trim ≠ "" →
        safeMeta m key fallback = (jsToString v).trim)) ∧
    (jget m key = jget m2 key →
      safeMeta m key fallback = safeMeta m2 key fallback) := by
  refine ⟨?_, ?_, ?_, ?_⟩
  · intro h; simp [safeMeta, h]
  · intro h; simp [safeMeta, h]
  · intro v hv hnn
    constructor
    · intro he
      rcases v with _ | b | n | s | xs | fs
      · exact absurd rfl hnn
      all_goals simp [safeMeta, hv, he]
    · intro he
      rcases v with _ | b | n | s | xs | fs
      · exact absurd rfl hnn
      all_goals simp [safeMeta, hv, he]
  · intro h
    simp only [safeMeta]
    rw [h]

/-- Witness for C4 at concrete inputs: a mapping with no "name" field
normalizes to the fallback. -/
theorem safeMeta_correct_witness :
    safeMeta (JValue.jobj []) "name" "-" = "-" :=
  (safeMeta_correct (JValue.jobj []) (JValue.jobj []) "name" "-").1 rfl

/-! ### Claim C5 — absent or non-array analysis key -/

/-- C5: for every parsed data file in which the key tricho_analysis is absent
or bound to a non-array value, the data loader returns an empty region
sequence, and a run whose remaining steps succeed exits 0 with the empty
sequence injected (no fatal error). -/
theorem missing_or_nonarray_analysis_yields_empty (json : JValue) (w : World)
    (hna : ∀ xs, jget json "tricho_analysis" ≠ some (JValue.jarr xs))
    (hparse : w.dataParse = some json)
    (hpos : (parseArgs w.argv).positional ≠ [])
    (hdf : w.dataFileExists = true) (hhf : w.htmlFileExists = true)
    (hl : w.launchOk = true) (hg : w.gotoOk = true) (he : w.entryPointOk = true)
    (hp : w.pdfOk = true) :
    readTrichoData w.dataParse = Except.ok (metaOf json, []) ∧
    (mainRun w).exitCode = 0 ∧ (mainRun w).injected = some [] := by
  have harr : arrOf json = [] := by
    unfold arrOf
    split
    · rename_i xs hxs
      exact absurd hxs (hna xs)
    · rfl
  rcases hpp : (parseArgs w.argv).positional with _ | ⟨t, rest⟩
  · exact absurd hpp hpos
  · refine ⟨?_, ?_, ?_⟩
    · rw [hparse]; simp [readTrichoData, harr]
    · simp [mainRun, hpp, hdf, hhf, hparse, readTrichoData, hl, hg, he, hp]
    · simp [mainRun, hpp, hdf, hhf, hparse, readTrichoData, hl, hg, he, hp, harr]

/-- Concrete world for the C5 witness: the bundle file parses to an object
whose tricho_analysis is a number, every external step succeeds. -/
def wNonArray : World where
  argv := ["bundle"]
  dataFileExists := true
  htmlFileExists := true
  dataParse := some (JValue.jobj [("tricho_analysis", JValue.jnum 5)])
  launchOk := true
  gotoOk := true
  entryPointOk := true
  waitSettles := true
  cardCountResult := Except.ok 1
  pdfOk := true
  now := ⟨2025, 6, 20, 9, 5, 3⟩

/-- Witness for C5 at concrete inputs: a bundle whose tricho_analysis is a
number (not an array) still renders, with an empty injected sequence. -/
theorem missing_or_nonarray_analysis_yields_empty_witness :
    readTrichoData (some (JValue.jobj [("tricho_analysis", JValue.jnum 5)])) =
      Except.ok (metaOf (JValue.jobj [("tricho_analysis", JValue.jnum 5)]), []) ∧
    (mainRun wNonArray).exitCode = 0 ∧ (mainRun wNonArray).injected = some [] :=
  missing_or_nonarray_analysis_yields_empty
    (JValue.jobj [("tricho_analysis", JValue.jnum 5)]) wNonArray
    (by
      intro xs h
      rw [show jget (JValue.jobj [("tricho_analysis", JValue.jnum 5)])
        "tricho_analysis" = some (JValue.jnum 5) from rfl] at h
      cases h)
    rfl (by decide) rfl rfl rfl rfl rfl rfl

/-! ### Claim C6 — order preservation from source array to injection -/

/-- C6: whenever the source file's tricho_analysis key holds an array, the
sequence passed into the template entry point (recorded as the injected
payload) is exactly that array, element for element and in order: the
pipeline applies no reordering, filtering, or transformation between load
and injection. -/
theorem injected_data_preserves_source_order (w : World) (json : JValue)
    (xs l : List JValue)
    (hparse : w.dataParse = some json)
    (harr : jget json "tricho_analysis" = some (JValue.jarr xs))
    (hinj : (mainRun w).injected = some l) :
    l = xs := by
  have ha : arrOf json = xs := by unfold arrOf; rw [harr]
  unfold mainRun at hinj
  rw [hparse] at hinj
  simp only [readTrichoData] at hinj
  repeat' split at hinj
  all_goals simp_all [usageFailure, inputCheckFailure, preLaunchFailure]

/-- Concrete world for the C6 witness: a two-element analysis array, every
external step succeeds. -/
def wTwoRegions : World where
  argv := ["bundle"]
  dataFileExists := true
  htmlFileExists := true
  dataParse := some (JValue.jobj [("tricho_analysis",
    JValue.jarr [JValue.jnum 1, JValue.jnum 2])])
  launchOk := true
  gotoOk := true
  entryPointOk := true
  waitSettles := true
  cardCountResult := Except.ok 2
  pdfOk := true
  now := ⟨2025, 6, 20, 9, 5, 3⟩

/-- Witness for C6 at concrete inputs: the two-element array arrives at the
entry point unchanged and in order. -/
theorem injected_data_preserves_source_order_witness :
    (mainRun wTwoRegions).injected = some [JValue.jnum 1, JValue.jnum 2] ∧
    ([JValue.jnum 1, JValue.jnum 2] : List JValue) =
      [JValue.jnum 1, JValue.jnum 2] :=
  ⟨rfl, injected_data_preserves_source_order wTwoRegions
    (JValue.jobj [("tricho_analysis", JValue.jarr [JValue.jnum 1, JValue.jnum 2])])
    [JValue.jnum 1, JValue.jnum 2] [JValue.jnum 1, JValue.jnum 2] rfl rfl rfl⟩

/-! ### Claim C7 — missing inputs exit before the browser is launched -/

/-- C7: for every invocation with at least one positional argument in which
the data file or the template document is absent, the run exits 1 at the
existence check: the data file is never read and no browser is launched. -/
theorem missing_input_exits_before_launch (w : World)
    (hpos : (parseArgs w.argv).positional ≠ [])
    (hmiss : w.dataFileExists = false ∨ w.htmlFileExists = false) :
    (mainRun w).exitCode = 1 ∧ (mainRun w).browserLaunched = false ∧
    (mainRun w).dataRead = false ∧ (mainRun w).pdfWritten = none := by
  rcases hpp : (parseArgs w.argv).positional with _ | ⟨t, rest⟩
  · exact absurd hpp hpos
  · by_cases hd : w.dataFileExists = false
    · simp [mainRun, hpp, hd, inputCheckFailure, usageFailure]
    · rcases hmiss with h | h
      · exact absurd h hd
      · simp [mainRun, hpp, hd, h, inputCheckFailure, usageFailure]

/-- Concrete world for the C7 witness: tricho_data.json does not exist. -/
def wNoDataFile : World where
  argv := ["bundle"]
  dataFileExists := false
  htmlFileExists := true
  dataParse := none
  launchOk := true
  gotoOk := true
  entryPointOk := true
  waitSettles := true
  cardCountResult := Except.ok 1
  pdfOk := true
  now := ⟨2025, 6, 20, 9, 5, 3⟩

/-- Witness for C7 at concrete inputs: a missing tricho_data.json exits 1
with no browser launched, no data read, no file written. -/
theorem missing_input_exits_before_launch_witness :
    (mainRun wNoDataFile).exitCode = 1 ∧
    (mainRun wNoDataFile).browserLaunched = false ∧
    (mainRun wNoDataFile).dataRead = false ∧
    (mainRun wNoDataFile).pdfWritten = none :=
  missing_input_exits_before_launch wNoDataFile (by decide) (Or.inl rfl)

/-! ### Claim C8 — zero positional arguments -/

/-- C8: for every invocation whose parsed argument list has zero positional
arguments, the program prints the usage text and exits 1, with no output
file, no browser, and no data read. -/
theorem no_args_usage_exit (w : World)
    (hpos : (parseArgs w.argv).positional = []) :
    (mainRun w).exitCode = 1 ∧ (mainRun w).usagePrinted = true ∧
    (mainRun w).pdfWritten = none ∧ (mainRun w).browserLaunched = false ∧
    (mainRun w).browserClosed = false ∧ (mainRun w).dataRead = false := by
  simp [mainRun, hpos, usageFailure]

/-- Concrete world for the C8 witness: empty argv, everything else ready. -/
def wNoArgs : World where
  argv := []
  dataFileExists := true
  htmlFileExists := true
  dataParse := some (JValue.jobj [])
  launchOk := true
  gotoOk := true
  entryPointOk := true
  waitSettles := true
  cardCountResult := Except.ok 1
  pdfOk := true
  now := ⟨2025, 6, 20, 9, 5, 3⟩

/-- Witness for C8 at concrete inputs: empty argv prints usage and exits 1
with no side effects. -/
theorem no_args_usage_exit_witness :
    (mainRun wNoArgs).exitCode = 1 ∧ (mainRun wNoArgs).usagePrinted = true ∧
    (mainRun wNoArgs).pdfWritten = none ∧
    (mainRun wNoArgs).browserLaunched = false ∧
    (mainRun wNoArgs).browserClosed = false ∧
    (mainRun wNoArgs).dataRead = false :=
  no_args_usage_exit wNoArgs rfl

/-! ### Claim C1 — browser teardown

render.js has no try/finally around the browser lifecycle: browser.close()
on line 197 is the last statement of the success path, and every rejection
between puppeteer.launch (line 133) and page.pdf (line 194) propagates to
the top-level catch (lines 201–204), which exits the process without closing
the browser.  The claim that teardown runs on every exit path is therefore
false; the counterexample below is a run that fails at template loading.
What does hold is that teardown runs exactly on the successful runs. -/

/-- Concrete world for the C1 counterexample: every step succeeds except
template loading (page.goto rejects). -/
def wGotoFail : World where
  argv := ["bundle"]
  dataFileExists := true
  htmlFileExists := true
  dataParse := some (JValue.jobj [])
  launchOk := true
  gotoOk := false
  entryPointOk := true
  waitSettles := true
  cardCountResult := Except.ok 1
  pdfOk := true
  now := ⟨2025, 6, 20, 9, 5, 3⟩

/-- C1 counterexample: a run that acquires the browser and then fails during
template loading ends with exit code 1 and the browser never closed — the
teardown is not executed on this exit path. -/
theorem browser_not_closed_on_goto_failure :
    (mainRun wGotoFail).browserLaunched = true ∧
    (mainRun wGotoFail).browserClosed = false ∧
    (mainRun wGotoFail).exitCode = 1 :=
  ⟨rfl, rfl, rfl⟩

/-- C1 amended: the browser teardown is executed exactly on the successful
exit path.  A run closes the browser if and only if it exits with code 0,
and a run that closes the browser had launched it. -/
theorem browser_closed_iff_success (w : World) :
    ((mainRun w).browserClosed = true ↔ (mainRun w).exitCode = 0) ∧
    ((mainRun w).browserClosed = true → (mainRun w).browserLaunched = true) := by
  unfold mainRun
  repeat' split
  all_goals simp [usageFailure, inputCheckFailure, preLaunchFailure]

/-! ### Claim C2 — the settle wait

The settle step (render.js lines 178–185) issues waitForSelector with a
fixed 8000 ms timeout and discards any rejection of that wait; it then
counts ".card" elements, and that query's rejection is also discarded,
replaced by the count 0.  Neither outcome affects control flow, so a run
whose remaining steps succeed exports the PDF regardless.  The claim that
ONLY the wait's timeout is swallowed is false: the card-count failure is
swallowed too, as the counterexample shows. -/

/-- Concrete world for the C2 counterexample: every step succeeds except the
card-count query, which rejects. -/
def wCardFail : World where
  argv := ["bundle"]
  dataFileExists := true
  htmlFileExists := true
  dataParse := some (JValue.jobj [])
  launchOk := true
  gotoOk := true
  entryPointOk := true
  waitSettles := true
  cardCountResult := Except.error ()
  pdfOk := true
  now := ⟨2025, 6, 20, 9, 5, 3⟩

/-- C2 counterexample: a failure of the card-count query — a failure other
than the settle wait's timeout — is also swallowed: the run still exits 0
and writes the PDF, with the count reported as 0. -/
theorem card_count_failure_swallowed :
    (mainRun wCardFail).exitCode = 0 ∧
    (mainRun wCardFail).cardCount = some 0 ∧
    (mainRun wCardFail).pdfWritten.isSome = true :=
  ⟨rfl, rfl, rfl⟩

/-- C2 amended: for every run that reaches the settle step, the wait is
bounded by the fixed 8000 ms timeout, and the run's outcome is independent
of both the wait's outcome and the card-count query's outcome (a failed
count is reported as 0): the run proceeds to the card count and the export
step, and succeeds exactly when the export succeeds.  The statement places
no hypothesis on waitSettles or cardCountResult, so it covers the case in
which the expected row never appears and the case in which counting fails;
every failure of the other steps still propagates (they are covered by the
hypotheses here and by the other theorems of this development). -/
theorem settle_wait_bounded_and_nonfatal (w : World)
    (hpos : (parseArgs w.argv).positional ≠ [])
    (hdf : w.dataFileExists = true) (hhf : w.htmlFileExists = true)
    (hp : w.dataParse.isSome = true)
    (hl : w.launchOk = true) (hg : w.gotoOk = true) (he : w.entryPointOk = true) :
    (mainRun w).settleWaitTimeoutMs = some 8000 ∧
    (mainRun w).reachedCardCount = true ∧
    (mainRun w).reachedExport = true ∧
    (w.cardCountResult = Except.error () → (mainRun w).cardCount = some 0) ∧
    (w.pdfOk = true → (mainRun w).exitCode = 0 ∧
      (mainRun w).pdfWritten.isSome = true ∧ (mainRun w).browserClosed = true) ∧
    (w.pdfOk = false → (mainRun w).exitCode = 1 ∧
      (mainRun w).pdfWritten = none) := by
  rcases hpp : (parseArgs w.argv).positional with _ | ⟨t, rest⟩
  · exact absurd hpp hpos
  · rcases Option.isSome_iff_exists.mp hp with ⟨json, hjson⟩
    by_cases hpdf : w.pdfOk = true
    · constructor
      · simp [mainRun, hpp, hdf, hhf, hjson, readTrichoData, hl, hg, he, hpdf]
      · constructor
        · simp [mainRun, hpp, hdf, hhf, hjson, readTrichoData, hl, hg, he, hpdf]
        · constructor
          · simp [mainRun, hpp, hdf, hhf, hjson, readTrichoData, hl, hg, he, hpdf]
          · constructor
            · intro hc
              simp [mainRun, hpp, hdf, hhf, hjson, readTrichoData, hl, hg, he, hpdf, hc]
            · constructor
              · intro _
                simp [mainRun, hpp, hdf, hhf, hjson, readTrichoData, hl, hg, he, hpdf]
              · intro hcontra
                rw [hpdf] at hcontra
                cases hcontra
    · have hpdf2 : w.pdfOk = false := by
        cases hb : w.pdfOk
        · rfl
        · exact absurd hb hpdf
      constructor
      · simp [mainRun, hpp, hdf, hhf, hjson, readTrichoData, hl, hg, he, hpdf2]
      · constructor
        · simp [mainRun, hpp, hdf, hhf, hjson, readTrichoData, hl, hg, he, hpdf2]
        · constructor
          · simp [mainRun, hpp, hdf, hhf, hjson, readTrichoData, hl, hg, he, hpdf2]
          · constructor
            · intro hc
              simp [mainRun, hpp, hdf, hhf, hjson, readTrichoData, hl, hg, he, hpdf2, hc]
            · constructor
              · intro hcontra
                rw [hpdf2] at hcontra
                cases hcontra
              · intro _
                simp [mainRun, hpp, hdf, hhf, hjson, readTrichoData, hl, hg, he, hpdf2]

/-- Concrete world for the C2 witness: the expected results-table row never
appears within the timeout (waitSettles is false), everything else
succeeds. -/
def wNeverSettles : World where
  argv := ["bundle"]
  dataFileExists := true
  htmlFileExists := true
  dataParse := some (JValue.jobj [])
  launchOk := true
  gotoOk := true
  entryPointOk := true
  waitSettles := false
  cardCountResult := Except.ok 0
  pdfOk := true
  now := ⟨2025, 6, 20, 9, 5, 3⟩

/-- Witness for the amended C2 at concrete inputs: with the row never
appearing, the run still reaches the card count and the export and exits 0
with a written PDF, under the fixed 8000 ms bound. -/
theorem settle_wait_bounded_and_nonfatal_witness :
    (mainRun wNeverSettles).settleWaitTimeoutMs = some 8000 ∧
    (mainRun wNeverSettles).reachedCardCount = true ∧
    (mainRun wNeverSettles).reachedExport = true ∧
    (wNeverSettles.cardCountResult = Except.error () →
      (mainRun wNeverSettles).cardCount = some 0) ∧
    (wNeverSettles.pdfOk = true → (mainRun wNeverSettles).exitCode = 0 ∧
      (mainRun wNeverSettles).pdfWritten.isSome = true ∧
      (mainRun wNeverSettles).browserClosed = true) ∧
    (wNeverSettles.pdfOk = false → (mainRun wNeverSettles).exitCode = 1 ∧
      (mainRun wNeverSettles).pdfWritten = none) :=
  settle_wait_bounded_and_nonfatal wNeverSettles
    (by decide) rfl rfl rfl rfl rfl rfl

/-! ### Claim C3 — the output PDF path -/

/-- C3: the output PDF path is the parent directory of the bundle directory
joined with either the caller-supplied second positional name when that name
carries a recognized PDF extension, or otherwise a generated name of shape
report-YYYYMMDD-HHMMSS.pdf whose clock components are zero-padded decimal
strings of width two (four for the year) with exactly one separator, between
the date part and the time part; a caller name without a recognized PDF
extension is ignored in favor of the generated name.  The final conjunct
ties this to the pipeline: whatever run writes a PDF writes it at exactly
this path. -/
theorem output_path_correct (nm : String) (d : DateParts)
    (hy1 : 1000 ≤ d.year) (hy2 : d.year < 10000) (hmo : d.monthIndex < 12)
    (hd : d.day ≤ 31) (hh : d.hours < 24) (hmi : d.minutes < 60)
    (hs : d.seconds < 60) :
    (nm ≠ "" → jsToLowerCase (extname nm) = ".pdf" → outName (some nm) d = nm) ∧
    (jsToLowerCase (extname nm) ≠ ".pdf" →
      outName (some nm) d = "report-" ++ ts d ++ ".pdf") ∧
    outName none d = "report-" ++ ts d ++ ".pdf" ∧
    (∃ y mo dy hr mi se : String,
      ts d = y ++ mo ++ dy ++ "-" ++ hr ++ mi ++ se ∧
      y.length = 4 ∧ mo.length = 2 ∧ dy.length = 2 ∧
      hr.length = 2 ∧ mi.length = 2 ∧ se.length = 2 ∧
      (∀ c ∈ y.toList, c.isDigit = true) ∧ (∀ c ∈ mo.toList, c.isDigit = true) ∧
      (∀ c ∈ dy.toList, c.isDigit = true) ∧ (∀ c ∈ hr.toList, c.isDigit = true) ∧
      (∀ c ∈ mi.toList, c.isDigit = true) ∧
      (∀ c ∈ se.toList, c.isDigit = true)) ∧
    (∀ (w : World) (t : String) (rest : List String) (p : String),
      (parseArgs w.argv).positional = t :: rest →
      (mainRun w).pdfWritten = some p →
      p = joinPath (dirname (resolvePath t)) (outName rest.head? w.now)) := by
  refine ⟨?_, ?_, ?_, ?_, ?_⟩
  · intro h1 h2
    simp [outName, h1, h2]
  · intro h2
    simp [outName, h2]
  · rfl
  · refine ⟨Nat.repr d.year, z (d.monthIndex + 1), z d.day,
      z d.hours, z d.minutes, z d.seconds, rfl,
      repr_year_length d.year hy1 hy2, ?_, ?_, ?_, ?_, ?_,
      repr_digits d.year, z_digits _, z_digits _, z_digits _, z_digits _,
      z_digits _⟩
    · exact z_length _ (by omega)
    · exact z_length _ (by omega)
    · exact z_length _ (by omega)
    · exact z_length _ (by omega)
    · exact z_length _ (by omega)
  · intro w t rest p hpp hw
    unfold mainRun at hw
    rw [hpp] at hw
    repeat' split at hw
    all_goals simp_all [usageFailure, inputCheckFailure, preLaunchFailure]

/-- Witness for C3 at concrete inputs: a caller name without a ".pdf"
extension is ignored and the generated timestamp name is used. -/
theorem output_path_correct_witness :
    outName (some "out.txt") ⟨2025, 6, 20, 9, 5, 3⟩ =
      "report-20250720-090503.pdf" := by
  have h := (output_path_correct "out.txt" ⟨2025, 6, 20, 9, 5, 3⟩
    (by decide) (by decide) (by decide) (by decide) (by decide) (by decide)
    (by decide)).2.1 (by decide)
  rw [h]
  rfl

/-! ### Claim C10 — case-insensitive PDF extension test -/

/-- C10: the recognized-PDF-extension test on the caller-supplied output
name is case-insensitive: any non-empty second positional name whose
extension lowercases to ".pdf" (that is, any letter-casing of ".pdf") is
honored verbatim as the output file name. -/
theorem pdf_extension_case_insensitive (nm parent : String) (d : DateParts)
    (h1 : nm ≠ "") (h2 : jsToLowerCase (extname nm) = ".pdf") :
    outName (some nm) d = nm ∧
    joinPath parent (outName (some nm) d) = joinPath parent nm := by
  have hsel : outName (some nm) d = nm := by simp [outName, h1, h2]
  exact ⟨hsel, by rw [hsel]⟩

/-- Witness for C10 at concrete inputs: the upper-cased name "scan.PDF" is
honored verbatim. -/
theorem pdf_extension_case_insensitive_witness :
    outName (some "scan.PDF") ⟨2025, 6, 20, 9, 5, 3⟩ = "scan.PDF" :=
  (pdf_extension_case_insensitive "scan.PDF" "parent" ⟨2025, 6, 20, 9, 5, 3⟩
    (by decide) (by decide)).1

/-! ### Claim C9 — the newest-report query -/

/-- C9: for every directory listing and date threshold, the report-file
query considers exactly the files that match the PDF wildcard and were
modified on or after the threshold date's midnight; when at least one file
matches it returns the full path of a match with maximal modification time,
and when none match it returns the human-readable no-report message instead
of failing. -/
theorem newestFile_correct (files : List PSFile) (targetDate : Nat) :
    (∀ f, f ∈ psMatches files targetDate ↔
      (f ∈ files ∧ matchesPdfFilter f = true ∧
        dateFloor targetDate ≤ f.lastWriteTime)) ∧
    (psMatches files targetDate = [] →
      newestFile files targetDate =
        toShortDateString targetDate ++ " has no report") ∧
    (psMatches files targetDate ≠ [] →
      ∃ g, g ∈ psMatches files targetDate ∧
        newestFile files targetDate = g.fullName ∧
        ∀ f ∈ psMatches files targetDate,
          f.lastWriteTime ≤ g.lastWriteTime) := by
  refine ⟨?_, ?_, ?_⟩
  · intro f
    constructor
    · intro hf
      rcases List.mem_filter.mp hf with ⟨hf1, hf2⟩
      rcases List.mem_filter.mp hf1 with ⟨hf3, hf4⟩
      exact ⟨hf3, hf4, by simpa using hf2⟩
    · rintro ⟨hf1, hf2, hf3⟩
      exact List.mem_filter.mpr ⟨List.mem_filter.mpr ⟨hf1, hf2⟩, by simpa using hf3⟩
  · intro h
    simp [newestFile, h, sortByTimeDesc, List.insertionSort]
  · intro h
    have hperm : List.Perm (sortByTimeDesc (psMatches files targetDate))
        (psMatches files targetDate) := List.perm_insertionSort _ _
    have hsorted : List.Sorted timeDesc
        (sortByTimeDesc (psMatches files targetDate)) :=
      List.sorted_insertionSort _ _
    cases hsort : sortByTimeDesc (psMatches files targetDate) with
    | nil =>
      rw [hsort] at hperm
      exact absurd (List.Perm.symm hperm).eq_nil h
    | cons g gs =>
      rw [hsort] at hperm hsorted
      refine ⟨g, hperm.mem_iff.mp (List.mem_cons_self g gs), ?_, ?_⟩
      · unfold newestFile
        rw [hsort]
      · intro f hf
        rcases List.mem_cons.mp (hperm.mem_iff.mpr hf) with rfl | hmem
        · exact le_refl _
        · exact (List.sorted_cons.mp hsorted).1 f hmem

/-- Concrete directory listing for the C9 witness. -/
def psDir : List PSFile :=
  [⟨"old.pdf", "/db/case/old.pdf", 100000⟩,
   ⟨"new.PDF", "/db/case/new.PDF", 200000⟩,
   ⟨"notes.txt", "/db/case/notes.txt", 300000⟩]

/-- Witness for C9 at concrete inputs: with two PDFs past the threshold
midnight, the query returns the most recently modified one. -/
theorem newestFile_correct_witness :
    newestFile psDir 150000 = "/db/case/new.PDF" ∧
    ∃ g, g ∈ psMatches psDir 150000 ∧
      newestFile psDir 150000 = g.fullName ∧
      ∀ f ∈ psMatches psDir 150000, f.lastWriteTime ≤ g.lastWriteTime :=
  ⟨by decide, (newestFile_correct psDir 150000).2.2 (by decide)⟩
